import Mathlib

/-!
# StackSlice import pipeline — verification of the core import semantics

Shallow embedding of `data_importer.py` (class `StackExchangeDataImporter`):
the field coercion helpers (`safe_int`, `safe_bool`, `parse_date`), the
batched insert loop shared by all entity imports, the per-entity
delete-then-insert replace semantics over a relational store modelled as
lists of rows, the site statistics and site listing queries, and a
constraint-checked variant of the insert path modelling the store's
`NOT NULL` / primary-key behaviour under auto-commit.
-/

namespace StackSlice

/-- ASCII-lowercasing of a string, embedding Python's `str.lower` on the
attribute values the importer sees. -/
def lowerStr (s : String) : String := String.mk (s.data.map Char.toLower)

/-- Value of a decimal digit string (most significant first); `none` as
soon as a non-digit appears. -/
def digitsVal (acc : Nat) : List Char → Option Nat
  | [] => some acc
  | c :: cs => if c.isDigit then digitsVal (acc * 10 + (c.toNat - 48)) cs else none

/-- Python's `int(value)` on the importer's inputs: an optional `-` sign
followed by decimal digits; anything else raises, which the caller maps
to `None`. -/
def strToInt (s : String) : Option Int :=
  match s.data with
  | [] => none
  | '-' :: cs => if cs = [] then none else (digitsVal 0 cs).map (fun n => -(n : Int))
  | cs => (digitsVal 0 cs).map (fun n => (n : Int))

/-- `safe_int` from `data_importer.py`: `None`/empty string give `None`
(Python `if not value`), otherwise `int(value)` with any parse failure
mapped to `None`. -/
def safe_int (value : Option String) : Option Int :=
  match value with
  | none => none
  | some s => if s = "" then none else strToInt s

/-- `safe_bool` from `data_importer.py`: `None`/empty string give `None`,
otherwise `value.lower() == 'true'`. -/
def safe_bool (value : Option String) : Option Bool :=
  match value with
  | none => none
  | some s => if s = "" then none else some (lowerStr s == "true")

/-- `parse_date` from `data_importer.py`: `None`/empty string give `None`;
otherwise the body is `return date_str` inside a `try` that can never
fail, so every non-empty input is returned unchanged. -/
def parse_date (date_str : Option String) : Option String :=
  match date_str with
  | none => none
  | some s => if s = "" then none else some s

/-- One step of the batch loop of the import methods: append the record to
the buffer and, when the buffer has reached the batch size, flush it
(one bulk insert) and clear it.  The state is
(rows already flushed to the store, current buffer). -/
def batchStep {α : Type} (batch_size : Nat) (acc : List α × List α) (x : α) :
    List α × List α :=
  let buf := acc.2 ++ [x]
  if batch_size ≤ buf.length then (acc.1 ++ buf, []) else (acc.1, buf)

/-- The full batch loop: fold the stream through `batchStep`, then flush
the remaining buffer (`if batch: executemany(...)`; flushing an empty
remainder appends nothing).  Returns all rows inserted, in order. -/
def runBatch {α : Type} (batch_size : Nat) (l : List α) : List α :=
  let r := l.foldl (batchStep batch_size) ([], [])
  r.1 ++ r.2

/-! ## Row elements (XML attribute records) and table rows

One structure per entity type for the attributes the importer reads off a
`row` element (`elem.get(...)` returns the attribute string or `None`),
and one structure per table row matching the tuple built by the
corresponding import method. -/

structure PostAttrs where
  Id : Option String := none
  PostTypeId : Option String := none
  AcceptedAnswerId : Option String := none
  CreationDate : Option String := none
  Score : Option String := none
  ViewCount : Option String := none
  Body : Option String := none
  OwnerUserId : Option String := none
  LastEditorUserId : Option String := none
  LastEditDate : Option String := none
  LastActivityDate : Option String := none
  Title : Option String := none
  Tags : Option String := none
  AnswerCount : Option String := none
  CommentCount : Option String := none
  ContentLicense : Option String := none
  ParentId : Option String := none
  ClosedDate : Option String := none
  deriving DecidableEq, Repr

structure PostRow where
  site : String
  id : Option Int := none
  post_type_id : Option Int := none
  accepted_answer_id : Option Int := none
  creation_date : Option String := none
  score : Option Int := none
  view_count : Option Int := none
  body : Option String := none
  owner_user_id : Option Int := none
  last_editor_user_id : Option Int := none
  last_edit_date : Option String := none
  last_activity_date : Option String := none
  title : Option String := none
  tags : Option String := none
  answer_count : Option Int := none
  comment_count : Option Int := none
  content_license : Option String := none
  parent_id : Option Int := none
  closed_date : Option String := none
  deriving DecidableEq, Repr

/-- The `post_data` tuple of `import_posts`. -/
def postRowOfAttrs (site_name : String) (a : PostAttrs) : PostRow :=
  { site := site_name
    id := safe_int a.Id
    post_type_id := safe_int a.PostTypeId
    accepted_answer_id := safe_int a.AcceptedAnswerId
    creation_date := parse_date a.CreationDate
    score := safe_int a.Score
    view_count := safe_int a.ViewCount
    body := a.Body
    owner_user_id := safe_int a.OwnerUserId
    last_editor_user_id := safe_int a.LastEditorUserId
    last_edit_date := parse_date a.LastEditDate
    last_activity_date := parse_date a.LastActivityDate
    title := a.Title
    tags := a.Tags
    answer_count := safe_int a.AnswerCount
    comment_count := safe_int a.CommentCount
    content_license := a.ContentLicense
    parent_id := safe_int a.ParentId
    closed_date := parse_date a.ClosedDate }

structure UserAttrs where
  Id : Option String := none
  Reputation : Option String := none
  CreationDate : Option String := none
  DisplayName : Option String := none
  LastAccessDate : Option String := none
  WebsiteUrl : Option String := none
  Location : Option String := none
  AboutMe : Option String := none
  Views : Option String := none
  UpVotes : Option String := none
  DownVotes : Option String := none
  ProfileImageUrl : Option String := none
  EmailHash : Option String := none
  AccountId : Option String := none
  deriving DecidableEq, Repr

structure UserRow where
  site : String
  id : Option Int := none
  reputation : Option Int := none
  creation_date : Option String := none
  display_name : Option String := none
  last_access_date : Option String := none
  website_url : Option String := none
  location : Option String := none
  about_me : Option String := none
  views : Option Int := none
  up_votes : Option Int := none
  down_votes : Option Int := none
  profile_image_url : Option String := none
  email_hash : Option String := none
  account_id : Option Int := none
  deriving DecidableEq, Repr

/-- The `user_data` tuple of `import_users`. -/
def userRowOfAttrs (site_name : String) (a : UserAttrs) : UserRow :=
  { site := site_name
    id := safe_int a.Id
    reputation := safe_int a.Reputation
    creation_date := parse_date a.CreationDate
    display_name := a.DisplayName
    last_access_date := parse_date a.LastAccessDate
    website_url := a.WebsiteUrl
    location := a.Location
    about_me := a.AboutMe
    views := safe_int a.Views
    up_votes := safe_int a.UpVotes
    down_votes := safe_int a.DownVotes
    profile_image_url := a.ProfileImageUrl
    email_hash := a.EmailHash
    account_id := safe_int a.AccountId }

structure CommentAttrs where
  Id : Option String := none
  PostId : Option String := none
  Score : Option String := none
  Text : Option String := none
  CreationDate : Option String := none
  UserDisplayName : Option String := none
  UserId : Option String := none
  ContentLicense : Option String := none
  deriving DecidableEq, Repr

structure CommentRow where
  site : String
  id : Option Int := none
  post_id : Option Int := none
  score : Option Int := none
  text : Option String := none
  creation_date : Option String := none
  user_display_name : Option String := none
  user_id : Option Int := none
  content_license : Option String := none
  deriving DecidableEq, Repr

/-- The `comment_data` tuple of `import_comments`. -/
def commentRowOfAttrs (site_name : String) (a : CommentAttrs) : CommentRow :=
  { site := site_name
    id := safe_int a.Id
    post_id := safe_int a.PostId
    score := safe_int a.Score
    text := a.Text
    creation_date := parse_date a.CreationDate
    user_display_name := a.UserDisplayName
    user_id := safe_int a.UserId
    content_license := a.ContentLicense }

structure VoteAttrs where
  Id : Option String := none
  PostId : Option String := none
  VoteTypeId : Option String := none
  CreationDate : Option String := none
  UserId : Option String := none
  BountyAmount : Option String := none
  deriving DecidableEq, Repr

structure VoteRow where
  site : String
  id : Option Int := none
  post_id : Option Int := none
  vote_type_id : Option Int := none
  creation_date : Option String := none
  user_id : Option Int := none
  bounty_amount : Option Int := none
  deriving DecidableEq, Repr

/-- The `vote_data` tuple of `import_other_tables`. -/
def voteRowOfAttrs (site_name : String) (a : VoteAttrs) : VoteRow :=
  { site := site_name
    id := safe_int a.Id
    post_id := safe_int a.PostId
    vote_type_id := safe_int a.VoteTypeId
    creation_date := parse_date a.CreationDate
    user_id := safe_int a.UserId
    bounty_amount := safe_int a.BountyAmount }

structure TagAttrs where
  Id : Option String := none
  TagName : Option String := none
  Count : Option String := none
  ExcerptPostId : Option String := none
  WikiPostId : Option String := none
  deriving DecidableEq, Repr

structure TagRow where
  site : String
  id : Option Int := none
  tag_name : Option String := none
  count : Option Int := none
  excerpt_post_id : Option Int := none
  wiki_post_id : Option Int := none
  deriving DecidableEq, Repr

/-- The `tag_data` tuple of `import_other_tables`. -/
def tagRowOfAttrs (site_name : String) (a : TagAttrs) : TagRow :=
  { site := site_name
    id := safe_int a.Id
    tag_name := a.TagName
    count := safe_int a.Count
    excerpt_post_id := safe_int a.ExcerptPostId
    wiki_post_id := safe_int a.WikiPostId }

structure BadgeAttrs where
  Id : Option String := none
  UserId : Option String := none
  Name : Option String := none
  Date : Option String := none
  Class : Option String := none
  TagBased : Option String := none
  deriving DecidableEq, Repr

structure BadgeRow where
  site : String
  id : Option Int := none
  user_id : Option Int := none
  name : Option String := none
  date : Option String := none
  class_ : Option Int := none
  tag_based : Option Bool := none
  deriving DecidableEq, Repr

/-- The `badge_data` tuple of `import_other_tables`. -/
def badgeRowOfAttrs (site_name : String) (a : BadgeAttrs) : BadgeRow :=
  { site := site_name
    id := safe_int a.Id
    user_id := safe_int a.UserId
    name := a.Name
    date := parse_date a.Date
    class_ := safe_int a.Class
    tag_based := safe_bool a.TagBased }

/-! ## The relational store

Each table is the list of its rows in insertion order; `DELETE ... WHERE
site = ?` is a filter and a bulk `INSERT` appends. -/

structure Store where
  posts : List PostRow := []
  users : List UserRow := []
  comments : List CommentRow := []
  votes : List VoteRow := []
  tags : List TagRow := []
  badges : List BadgeRow := []
  deriving DecidableEq, Repr

def emptyStore : Store := {}

/-! ## Import operations

Every import method follows the same shape: if the entity's XML file is
missing, return at once; otherwise `DELETE FROM t WHERE site = ?`, then
stream the rows through the batch loop.  A file is modelled as
`Option (List attrs)`: `none` when absent from the data folder, otherwise
the list of `row` elements `iterparse` yields. -/

/-- Delete-then-batched-insert on one table: keep the rows of other
sites, then append the new rows through the batch loop with the
importer's `batch_size = 1000`. -/
def replaceRows {α : Type} (siteOf : α → String) (site_name : String)
    (newRows : List α) (tbl : List α) : List α :=
  tbl.filter (fun r => siteOf r != site_name) ++ runBatch 1000 newRows

/-- `import_posts`: early return on a missing file; otherwise clear this
site's posts, insert the converted rows in batches, and report
`SELECT COUNT(*) FROM posts WHERE site = ?`. -/
def import_posts (site_name : String) (file : Option (List PostAttrs))
    (s : Store) : Store × Nat :=
  match file with
  | none => (s, 0)
  | some rows =>
    let tbl := replaceRows PostRow.site site_name (rows.map (postRowOfAttrs site_name)) s.posts
    ({ s with posts := tbl }, (tbl.filter (fun r => r.site == site_name)).length)

/-- `import_users`, same shape as `import_posts`. -/
def import_users (site_name : String) (file : Option (List UserAttrs))
    (s : Store) : Store × Nat :=
  match file with
  | none => (s, 0)
  | some rows =>
    let tbl := replaceRows UserRow.site site_name (rows.map (userRowOfAttrs site_name)) s.users
    ({ s with users := tbl }, (tbl.filter (fun r => r.site == site_name)).length)

/-- `import_comments`, same shape as `import_posts`. -/
def import_comments (site_name : String) (file : Option (List CommentAttrs))
    (s : Store) : Store × Nat :=
  match file with
  | none => (s, 0)
  | some rows =>
    let tbl := replaceRows CommentRow.site site_name (rows.map (commentRowOfAttrs site_name)) s.comments
    ({ s with comments := tbl }, (tbl.filter (fun r => r.site == site_name)).length)

/-- `import_other_tables`: votes, then tags, then badges, each guarded by
its own file-existence check and otherwise delete-then-insert. -/
def import_other_tables (site_name : String)
    (votes_file : Option (List VoteAttrs)) (tags_file : Option (List TagAttrs))
    (badges_file : Option (List BadgeAttrs)) (s : Store) : Store :=
  let s1 := match votes_file with
    | none => s
    | some rows =>
      { s with votes := replaceRows VoteRow.site site_name (rows.map (voteRowOfAttrs site_name)) s.votes }
  let s2 := match tags_file with
    | none => s1
    | some rows =>
      { s1 with tags := replaceRows TagRow.site site_name (rows.map (tagRowOfAttrs site_name)) s1.tags }
  match badges_file with
  | none => s2
  | some rows =>
    { s2 with badges := replaceRows BadgeRow.site site_name (rows.map (badgeRowOfAttrs site_name)) s2.badges }

/-- The XML files of one site's data folder (`none` = file absent). -/
structure SiteFiles where
  posts : Option (List PostAttrs) := none
  users : Option (List UserAttrs) := none
  comments : Option (List CommentAttrs) := none
  votes : Option (List VoteAttrs) := none
  tags : Option (List TagAttrs) := none
  badges : Option (List BadgeAttrs) := none

/-- `import_site_data`: posts, users, comments, then the other tables,
sequentially. -/
def import_site_data (site_name : String) (files : SiteFiles) (s : Store) : Store :=
  let s1 := (import_posts site_name files.posts s).1
  let s2 := (import_users site_name files.users s1).1
  let s3 := (import_comments site_name files.comments s2).1
  import_other_tables site_name files.votes files.tags files.badges s3

/-- Per-table row counts of `get_site_stats`. -/
structure SiteStats where
  posts : Nat
  users : Nat
  comments : Nat
  votes : Nat
  tags : Nat
  badges : Nat
  deriving DecidableEq, Repr

/-- `get_site_stats`: `SELECT COUNT(*) FROM t WHERE site = ?` per table. -/
def get_site_stats (site_name : String) (s : Store) : SiteStats :=
  { posts := (s.posts.filter (fun r => r.site == site_name)).length
    users := (s.users.filter (fun r => r.site == site_name)).length
    comments := (s.comments.filter (fun r => r.site == site_name)).length
    votes := (s.votes.filter (fun r => r.site == site_name)).length
    tags := (s.tags.filter (fun r => r.site == site_name)).length
    badges := (s.badges.filter (fun r => r.site == site_name)).length }

/-- `list_sites`: `SELECT DISTINCT site FROM posts ORDER BY site` — the
distinct site values of the posts table only, in ascending order. -/
def list_sites (s : Store) : List String :=
  (List.insertionSort (fun a b : String => a ≤ b) (s.posts.map PostRow.site)).dedup

/-- The slice of a store belonging to one site: every table filtered to
that site's rows. -/
def siteSlice (site_name : String) (s : Store) : Store :=
  { posts := s.posts.filter (fun r => r.site == site_name)
    users := s.users.filter (fun r => r.site == site_name)
    comments := s.comments.filter (fun r => r.site == site_name)
    votes := s.votes.filter (fun r => r.site == site_name)
    tags := s.tags.filter (fun r => r.site == site_name)
    badges := s.badges.filter (fun r => r.site == site_name) }

/-! ## Constraint-checked insert path

The schema declares `posts(site VARCHAR NOT NULL, id INTEGER NOT NULL,
PRIMARY KEY (site, id))`.  The importer opens no transaction and DuckDB
auto-commits, so the `DELETE` and each already-executed row insert stay
committed when a later insert raises; the exception propagates out of
`import_posts`.  The checked model inserts row by row and stops at the
first constraint violation, returning the store as left behind plus a
success flag. -/

/-- One row insert under the posts table's constraints: `NOT NULL` on
`id` and uniqueness of `(site, id)`. -/
def insert_post_chk (tbl : List PostRow) (r : PostRow) : Option (List PostRow) :=
  match r.id with
  | none => none
  | some i =>
    if tbl.any (fun q => q.site == r.site && q.id == some i) then none
    else some (tbl ++ [r])

/-- Insert rows one statement at a time (auto-commit): on the first
violation, keep what was already inserted and report failure. -/
def insert_posts_chk (tbl : List PostRow) : List PostRow → List PostRow × Bool
  | [] => (tbl, true)
  | r :: rs =>
    match insert_post_chk tbl r with
    | none => (tbl, false)
    | some tbl2 => insert_posts_chk tbl2 rs

/-- `import_posts` with the store's constraints enforced: missing file is
an early return; otherwise the site's rows are deleted (committed), then
the converted rows are inserted until a constraint violation aborts the
run. -/
def import_posts_chk (site_name : String) (file : Option (List PostAttrs))
    (s : Store) : Store × Bool :=
  match file with
  | none => (s, true)
  | some rows =>
    let deleted := s.posts.filter (fun r => r.site != site_name)
    let result := insert_posts_chk deleted (rows.map (postRowOfAttrs site_name))
    ({ s with posts := result.1 }, result.2)

/-- A store holding one post of site `"a"`, used to instantiate the
isolation theorem. -/
def isolationStore : Store := { posts := [{ site := "a", id := some 1 }] }

/-- Files for site `"b"`: a `Posts.xml` with one row, no other files. -/
def isolationFiles : SiteFiles := { posts := some [{ Id := some "5" }] }

/-- A store already holding one `"a"` post, the state before a re-import
whose insert fails. -/
def priorStore : Store := { posts := [{ site := "a", id := some 1 }] }

/-- A `Posts.xml` row element carrying no `Id` attribute: `safe_int`
coerces it to `NULL`, which the `NOT NULL` primary-key column rejects. -/
def rowWithoutId : PostAttrs := {}

/-- A store whose only rows live in the users table, for tenant `"b"`. -/
def usersOnlyStore : Store := { users := [{ site := "b", id := some 1 }] }


theorem batch_foldl_eq {α : Type} (b : Nat) (l : List α) :
    ∀ acc : List α × List α,
      ((l.foldl (batchStep b) acc).1 ++ (l.foldl (batchStep b) acc).2)
        = acc.1 ++ acc.2 ++ l := by
  induction l with
  | nil => intro acc; simp
  | cons x xs ih =>
    intro acc
    simp only [List.foldl_cons]
    rw [ih]
    unfold batchStep
    by_cases h : b ≤ acc.2.length + 1
    · simp [h, List.append_assoc]
    · simp [h, List.append_assoc]

theorem runBatch_id {α : Type} (b : Nat) (l : List α) : runBatch b l = l := by
  unfold runBatch
  simpa using batch_foldl_eq b l ([], [])

/-! ## Generic lemmas about the replace semantics -/

theorem replaceRows_eq {α : Type} (f : α → String) (T : String)
    (rs tbl : List α) :
    replaceRows f T rs tbl = tbl.filter (fun r => f r != T) ++ rs := by
  unfold replaceRows
  rw [runBatch_id]

theorem filter_ne_nil_of_all {α : Type} (f : α → String) (T : String)
    (rs : List α) (h : ∀ r ∈ rs, f r = T) :
    rs.filter (fun r => f r != T) = [] := by
  rw [List.filter_eq_nil_iff]
  intro a ha
  simp [h a ha]

theorem filter_eq_nil_of_all_ne {α : Type} (f : α → String) {T1 T2 : String}
    (h12 : T1 ≠ T2) (rs : List α) (h : ∀ r ∈ rs, f r = T2) :
    rs.filter (fun r => f r == T1) = [] := by
  rw [List.filter_eq_nil_iff]
  intro a ha
  simp [h a ha, Ne.symm h12]

theorem filter_ne_idem {α : Type} (f : α → String) (T : String) (tbl : List α) :
    (tbl.filter (fun r => f r != T)).filter (fun r => f r != T)
      = tbl.filter (fun r => f r != T) := by
  rw [List.filter_filter]
  simp

theorem replaceRows_idem {α : Type} (f : α → String) (T : String)
    (rs tbl : List α) (h : ∀ r ∈ rs, f r = T) :
    replaceRows f T rs (replaceRows f T rs tbl) = replaceRows f T rs tbl := by
  rw [replaceRows_eq, replaceRows_eq, List.filter_append,
    filter_ne_idem, filter_ne_nil_of_all f T rs h, List.append_nil]

theorem replaceRows_other_site {α : Type} (f : α → String) {T1 T2 : String}
    (h12 : T1 ≠ T2) (rs tbl : List α) (h : ∀ r ∈ rs, f r = T2) :
    (replaceRows f T2 rs tbl).filter (fun r => f r == T1)
      = tbl.filter (fun r => f r == T1) := by
  rw [replaceRows_eq, List.filter_append, filter_eq_nil_of_all_ne f h12 rs h,
    List.append_nil, List.filter_filter]
  apply List.filter_congr
  intro a _
  by_cases ha : f a = T1
  · simp [ha, h12]
  · simp [ha]

theorem postRowOfAttrs_site (T : String) (rows : List PostAttrs) :
    ∀ r ∈ rows.map (postRowOfAttrs T), r.site = T := by
  intro r hr
  rcases List.mem_map.1 hr with ⟨a, -, rfl⟩
  rfl

theorem userRowOfAttrs_site (T : String) (rows : List UserAttrs) :
    ∀ r ∈ rows.map (userRowOfAttrs T), r.site = T := by
  intro r hr
  rcases List.mem_map.1 hr with ⟨a, -, rfl⟩
  rfl

theorem commentRowOfAttrs_site (T : String) (rows : List CommentAttrs) :
    ∀ r ∈ rows.map (commentRowOfAttrs T), r.site = T := by
  intro r hr
  rcases List.mem_map.1 hr with ⟨a, -, rfl⟩
  rfl

theorem voteRowOfAttrs_site (T : String) (rows : List VoteAttrs) :
    ∀ r ∈ rows.map (voteRowOfAttrs T), r.site = T := by
  intro r hr
  rcases List.mem_map.1 hr with ⟨a, -, rfl⟩
  rfl

theorem tagRowOfAttrs_site (T : String) (rows : List TagAttrs) :
    ∀ r ∈ rows.map (tagRowOfAttrs T), r.site = T := by
  intro r hr
  rcases List.mem_map.1 hr with ⟨a, -, rfl⟩
  rfl

theorem badgeRowOfAttrs_site (T : String) (rows : List BadgeAttrs) :
    ∀ r ∈ rows.map (badgeRowOfAttrs T), r.site = T := by
  intro r hr
  rcases List.mem_map.1 hr with ⟨a, -, rfl⟩
  rfl

/-! ## Frame facts: each import method touches only its own table(s) -/

theorem import_posts_fst (T : String) (file : Option (List PostAttrs)) (s : Store) :
    (import_posts T file s).1 =
      { s with posts := match file with
          | none => s.posts
          | some rows => replaceRows PostRow.site T (rows.map (postRowOfAttrs T)) s.posts } := by
  cases file <;> rfl

theorem import_users_fst (T : String) (file : Option (List UserAttrs)) (s : Store) :
    (import_users T file s).1 =
      { s with users := match file with
          | none => s.users
          | some rows => replaceRows UserRow.site T (rows.map (userRowOfAttrs T)) s.users } := by
  cases file <;> rfl

theorem import_comments_fst (T : String) (file : Option (List CommentAttrs)) (s : Store) :
    (import_comments T file s).1 =
      { s with comments := match file with
          | none => s.comments
          | some rows => replaceRows CommentRow.site T (rows.map (commentRowOfAttrs T)) s.comments } := by
  cases file <;> rfl

theorem import_other_tables_eq (T : String) (vf : Option (List VoteAttrs))
    (tf : Option (List TagAttrs)) (bf : Option (List BadgeAttrs)) (s : Store) :
    import_other_tables T vf tf bf s =
      { s with
        votes := match vf with
          | none => s.votes
          | some rows => replaceRows VoteRow.site T (rows.map (voteRowOfAttrs T)) s.votes
        tags := match tf with
          | none => s.tags
          | some rows => replaceRows TagRow.site T (rows.map (tagRowOfAttrs T)) s.tags
        badges := match bf with
          | none => s.badges
          | some rows => replaceRows BadgeRow.site T (rows.map (badgeRowOfAttrs T)) s.badges } := by
  cases vf <;> cases tf <;> cases bf <;> rfl

/-! ## C1 — idempotence of re-importing a tenant's entity type -/

/-- C1: for every tenant `T`, entity type, file contents and initial
store, running the entity's import twice in succession leaves the store
(and the reported row count) exactly as running it once: the
delete-before-insert makes re-imports idempotent. -/
theorem import_twice_eq_import_once :
    ∀ (T : String) (s : Store),
      (∀ file, import_posts T file (import_posts T file s).1 = import_posts T file s) ∧
      (∀ file, import_users T file (import_users T file s).1 = import_users T file s) ∧
      (∀ file, import_comments T file (import_comments T file s).1 = import_comments T file s) ∧
      (∀ vf tf bf, import_other_tables T vf tf bf (import_other_tables T vf tf bf s)
        = import_other_tables T vf tf bf s) := by
  intro T s
  refine ⟨?_, ?_, ?_, ?_⟩
  · intro file
    cases file with
    | none => rfl
    | some rows =>
      simp only [import_posts]
      rw [replaceRows_idem PostRow.site T _ s.posts (postRowOfAttrs_site T rows)]
  · intro file
    cases file with
    | none => rfl
    | some rows =>
      simp only [import_users]
      rw [replaceRows_idem UserRow.site T _ s.users (userRowOfAttrs_site T rows)]
  · intro file
    cases file with
    | none => rfl
    | some rows =>
      simp only [import_comments]
      rw [replaceRows_idem CommentRow.site T _ s.comments (commentRowOfAttrs_site T rows)]
  · intro vf tf bf
    cases vf <;> cases tf <;> cases bf <;>
      simp only [import_other_tables] <;>
      (try rw [replaceRows_idem VoteRow.site T _ s.votes (voteRowOfAttrs_site T _)]) <;>
      (try rw [replaceRows_idem TagRow.site T _ s.tags (tagRowOfAttrs_site T _)]) <;>
      (try rw [replaceRows_idem BadgeRow.site T _ s.badges (badgeRowOfAttrs_site T _)])

/-! ## C2 — tenant isolation -/

/-- C2: importing tenant `T2` (all entity types, over any file contents)
leaves every row belonging to a distinct tenant `T1` unchanged: `T1`'s
slice of the store — row counts and contents of all six tables — is the
same before and after. -/
theorem import_other_sites_untouched
    (T1 T2 : String) (h : T1 ≠ T2) (files : SiteFiles) (s : Store) :
    siteSlice T1 (import_site_data T2 files s) = siteSlice T1 s := by
  simp only [import_site_data]
  rw [import_posts_fst, import_users_fst, import_comments_fst, import_other_tables_eq]
  simp only [siteSlice, Store.mk.injEq]
  refine ⟨?_, ?_, ?_, ?_, ?_, ?_⟩
  · cases hf : files.posts with
    | none => rfl
    | some rows => exact replaceRows_other_site PostRow.site h _ _ (postRowOfAttrs_site T2 rows)
  · cases hf : files.users with
    | none => rfl
    | some rows => exact replaceRows_other_site UserRow.site h _ _ (userRowOfAttrs_site T2 rows)
  · cases hf : files.comments with
    | none => rfl
    | some rows => exact replaceRows_other_site CommentRow.site h _ _ (commentRowOfAttrs_site T2 rows)
  · cases hf : files.votes with
    | none => rfl
    | some rows => exact replaceRows_other_site VoteRow.site h _ _ (voteRowOfAttrs_site T2 rows)
  · cases hf : files.tags with
    | none => rfl
    | some rows => exact replaceRows_other_site TagRow.site h _ _ (tagRowOfAttrs_site T2 rows)
  · cases hf : files.badges with
    | none => rfl
    | some rows => exact replaceRows_other_site BadgeRow.site h _ _ (badgeRowOfAttrs_site T2 rows)

/-- Witness for C2 at tenants `"a" ≠ "b"` on a concrete store. -/
theorem import_other_sites_untouched_witness :
    ("a" : String) ≠ "b" ∧
      siteSlice "a" (import_site_data "b" isolationFiles isolationStore)
        = siteSlice "a" isolationStore :=
  ⟨by decide, import_other_sites_untouched "a" "b" (by decide) isolationFiles isolationStore⟩

/-! ## C4 — `safe_bool` (the spec's `toBool`) -/

/-- C4: `safe_bool` is null exactly on absent or empty input; on any
non-empty input it is `true` exactly when the value matches `"true"`
case-insensitively and `false` otherwise, never null and never failing;
in particular `toBool("True") = true`, `toBool("false") = false`,
`toBool("") = null`, `toBool("yes") = false`. -/
theorem safe_bool_spec :
    (∀ v : Option String, safe_bool v = none ↔ (v = none ∨ v = some "")) ∧
    (∀ s : String, s ≠ "" → (safe_bool (some s) = some true ↔ lowerStr s = "true")) ∧
    (∀ s : String, s ≠ "" → lowerStr s ≠ "true" → safe_bool (some s) = some false) ∧
    safe_bool (some "True") = some true ∧ safe_bool (some "false") = some false ∧
    safe_bool (some "") = none ∧ safe_bool (some "yes") = some false := by
  refine ⟨?_, ?_, ?_, by decide, by decide, by decide, by decide⟩
  · intro v
    cases v with
    | none => simp [safe_bool]
    | some s =>
      by_cases hs : s = "" <;> simp [safe_bool, hs]
  · intro s hs
    simp [safe_bool, hs]
  · intro s hs hne
    simp [safe_bool, hs, hne]

/-- Witness for C4: the case-insensitive clause at input `"TRUE"`. -/
theorem safe_bool_spec_witness :
    (("TRUE" : String) ≠ "") ∧ (safe_bool (some "TRUE") = some true ↔ lowerStr "TRUE" = "true") :=
  ⟨by decide, safe_bool_spec.2.1 "TRUE" (by decide)⟩

/-! ## C5 — `parse_date` (the spec's `toTimestamp`) -/

/-- C5 counterexample: the claim says an input that is not parseable as
an ISO-8601 date-time comes back null, but `parse_date` does no parsing
at all — `"not a date"` is returned unchanged, not nulled. -/
theorem parse_date_passes_unparseable_through :
    parse_date (some "not a date") = some "not a date" ∧
      parse_date (some "not a date") ≠ none := by
  exact ⟨rfl, by decide⟩

/-- C5 amended: `parse_date` returns null exactly on empty or absent
input; every other input — parseable as ISO-8601 or not — is passed
through unmodified (it never invents a value and never raises). -/
theorem parse_date_spec :
    (∀ v : Option String, parse_date v = none ↔ (v = none ∨ v = some "")) ∧
    (∀ (v : Option String) (s : String), parse_date v = some s → v = some s) := by
  constructor
  · intro v
    cases v with
    | none => simp [parse_date]
    | some s =>
      by_cases hs : s = "" <;> simp [parse_date, hs]
  · intro v s h
    cases v with
    | none => simp [parse_date] at h
    | some t =>
      by_cases ht : t = "" <;> simp [parse_date, ht] at h
      rw [h]

/-- Witness for C5's pass-through clause at a well-formed timestamp. -/
theorem parse_date_spec_witness :
    (some "2008-07-31T21:42:52.667" : Option String) = some "2008-07-31T21:42:52.667" :=
  parse_date_spec.2 (some "2008-07-31T21:42:52.667") "2008-07-31T21:42:52.667" (by decide)

/-! ## C7 — the batch accumulator inserts every record exactly once -/

/-- C7: for every batch threshold and finite stream, the batch loop (full
flush at the threshold, remainder flush at end-of-stream, an empty
remainder being a no-op) emits exactly the input stream — no dropped and
no duplicated rows — and consequently an `import_posts` run stores
exactly one row per source row element. -/
theorem batch_accumulator_exact :
    (∀ (α : Type) (b : Nat), 1 ≤ b → ∀ l : List α, runBatch b l = l) ∧
    (∀ (T : String) (rows : List PostAttrs) (s : Store),
      (import_posts T (some rows) s).1.posts.length
        = (s.posts.filter (fun r => r.site != T)).length + rows.length) := by
  constructor
  · intro α b _ l
    exact runBatch_id b l
  · intro T rows s
    simp [import_posts, replaceRows_eq]

/-- Witness for C7: a stream one longer than the threshold (1001 records
at threshold 1000). -/
theorem batch_accumulator_exact_witness :
    1 ≤ 1000 ∧ runBatch 1000 (List.replicate 1001 (0 : Nat)) = List.replicate 1001 0 :=
  ⟨by decide, batch_accumulator_exact.1 Nat 1000 (by decide) _⟩

/-! ## C8 — a missing entity file is non-fatal -/

/-- C8: when the entity type's XML file is absent, the import is a total
no-op — no exception (the operations stay total functions), the store is
untouched, zero rows are imported — and a fresh store reports zero rows
for the tenant afterwards. -/
theorem missing_file_nonfatal :
    ∀ (T : String) (s : Store),
      import_posts T none s = (s, 0) ∧ import_users T none s = (s, 0) ∧
      import_comments T none s = (s, 0) ∧
      import_other_tables T none none none s = s ∧
      get_site_stats T (import_posts T none emptyStore).1 =
        { posts := 0, users := 0, comments := 0, votes := 0, tags := 0, badges := 0 } := by
  intro T s
  exact ⟨rfl, rfl, rfl, rfl, rfl⟩

/-! ## C10 — the early return on a missing file precedes the delete -/

/-- C10: an import invoked with the entity type's file absent leaves the
store completely unchanged for that tenant and entity type, for every
one of the six entity types — in particular previously loaded rows are
**not** deleted, because the early return in each of
`import_posts` / `import_users` / `import_comments` happens before the
tenant-scoped `DELETE`, and in `import_other_tables` each of
votes/tags/badges has its own guard. -/
theorem missing_file_keeps_prior_rows :
    ∀ (T : String) (s : Store),
      (import_posts T none s).1.posts = s.posts ∧
      (import_users T none s).1.users = s.users ∧
      (import_comments T none s).1.comments = s.comments ∧
      (∀ tf bf, (import_other_tables T none tf bf s).votes = s.votes) ∧
      (∀ vf bf, (import_other_tables T vf none bf s).tags = s.tags) ∧
      (∀ vf tf, (import_other_tables T vf tf none s).badges = s.badges) ∧
      siteSlice T ((import_posts T none s).1) = siteSlice T s ∧
      siteSlice T ((import_users T none s).1) = siteSlice T s ∧
      siteSlice T ((import_comments T none s).1) = siteSlice T s := by
  intro T s
  refine ⟨rfl, rfl, rfl, ?_, ?_, ?_, rfl, rfl, rfl⟩
  · intro tf bf
    cases tf <;> cases bf <;> rfl
  · intro vf bf
    cases vf <;> cases bf <;> rfl
  · intro vf tf
    cases vf <;> cases tf <;> rfl

/-! ## C3 — the delete + inserts are not atomic -/

/-- C3 evaluated at the failing input: re-importing site `"a"` from a
file whose row has no `Id` first commits the tenant-scoped `DELETE`
(no transaction is opened, the store auto-commits), then the insert
raises; the run fails with the prior rows already erased and not
restored — the delete and inserts do not execute as one atomic unit. -/
theorem delete_insert_not_atomic :
    (import_posts_chk "a" (some [rowWithoutId]) priorStore).2 = false ∧
    (import_posts_chk "a" (some [rowWithoutId]) priorStore).1.posts = [] ∧
    priorStore.posts.filter (fun r => r.site == "a") ≠ [] := by
  decide

/-! ## C6 — malformed fields coerce to null, but not for the key field -/

/-- C9 counterexample: tenant `"b"` has rows in an entity table (users),
yet `list_sites` — `SELECT DISTINCT site FROM posts` — does not return
it. -/
theorem list_sites_misses_other_tables :
    list_sites usersOnlyStore = [] ∧ (∃ r ∈ usersOnlyStore.users, r.site = "b") := by
  constructor
  · rfl
  · decide

/-- C9 amended: `list_sites` returns the distinct site identifiers
present in the **posts** table only, as an ordered set (no duplicates,
ascending); a tenant whose rows live only in other tables is omitted. -/
theorem list_sites_spec :
    ∀ s : Store,
      (list_sites s).Nodup ∧
      List.Sorted (fun a b : String => a ≤ b) (list_sites s) ∧
      (∀ T, T ∈ list_sites s ↔ ∃ r ∈ s.posts, r.site = T) := by
  intro s
  refine ⟨List.nodup_dedup _, ?_, ?_⟩
  · exact List.Pairwise.sublist (List.dedup_sublist _) (List.sorted_insertionSort _ _)
  · intro T
    unfold list_sites
    rw [List.mem_dedup, List.mem_insertionSort]
    simp [List.mem_map, eq_comm]

end StackSlice
